import Mathlib

/-!
Shallow embedding of `src/main.py` (24WASH LINE payment bot): the amount
normalizer, the SlipOK slip-verification wrapper, the Gemini AI fallback
response handling, the coupon redemption manager, and the two LINE event
handlers.  External collaborators (SlipOK HTTP API, Firebase realtime
database, the Gemini model, `json.loads`) are modelled as environment
inputs; a call that raises an exception in Python is an `Except.error`
result of the corresponding environment field, caught exactly where the
Python code has a `try`/`except`.
-/

namespace Wash24

/-- Decimal model of a CPython `float` as it appears in this program:
value `m / 10 ^ e`.  Python prints a float with its shortest round-tripping
decimal representation; a float literal such as `20.0`, `20.5`, `30.01` is
modelled by the `Dec` with that exact mantissa/exponent (`⟨200,1⟩`,
`⟨205,1⟩`, `⟨3001,2⟩`), for which `Dec.render` below agrees with `str`. -/
structure Dec where
  m : Int
  e : Nat
  deriving Repr, DecidableEq

/-- `float(n)` for an int `n`. -/
def Dec.ofInt (n : Int) : Dec := ⟨n * 10, 1⟩

/-- Python `float.is_integer`. -/
def Dec.isInt (f : Dec) : Bool := f.m % ((10 : Int) ^ f.e) == 0

/-- Python `int(f)`: truncation toward zero (used by the code only on
floats whose fractional part is exactly zero). -/
def Dec.toInt (f : Dec) : Int :=
  let q : Nat := f.m.natAbs / 10 ^ f.e
  if f.m < 0 then -(q : Int) else (q : Int)

/-- Left-pad a digit string with zeros to width `k`. -/
def padLeftZeros (k : Nat) (s : String) : String :=
  String.mk (List.replicate (k - s.length) '0') ++ s

/-- `str` of a Python float (e.g. `str(20.0) = "20.0"`, `str(30.01) =
"30.01"`): integer part, a dot, then the fractional digits. -/
def Dec.render (f : Dec) : String :=
  let a := f.m.natAbs
  let ip := a / 10 ^ f.e
  let fp := a % 10 ^ f.e
  (if f.m < 0 then "-" else "") ++ toString ip ++ "." ++ padLeftZeros f.e (toString fp)

/-- Model of the Python values flowing through the program: `None`, bools,
ints, floats, strings and (JSON-shaped) dicts. -/
inductive PyVal where
  | none
  | bool (b : Bool)
  | int (n : Int)
  | float (f : Dec)
  | str (s : String)
  | dict (entries : List (String × PyVal))

/-- Python truthiness (`if x:`). -/
def truthy : PyVal → Bool
  | .none => false
  | .bool b => b
  | .int n => n != 0
  | .float f => f.m != 0
  | .str s => s != ""
  | .dict es => !es.isEmpty

/-- `d.get(k)` on a dict, `None` when the key is absent.  On a non-dict
the Python attribute error is modelled as `None` only where the calling
code catches the resulting exception (see each call site). -/
def PyVal.get : PyVal → String → PyVal
  | .dict es, k => (es.lookup k).getD .none
  | _, _ => .none

def PyVal.isNone : PyVal → Bool
  | .none => true
  | _ => false

/-! Models of the Python `str` methods the program uses (`strip`,
`upper`, `startswith`, `endswith`, slicing), over the character list of
the string. -/

def isSpace (c : Char) : Bool :=
  c == ' ' || c == '\t' || c == '\n' || c == '\r' || c == '\x0b' || c == '\x0c'

/-- Python `s.strip()`. -/
def pyStrip (s : String) : String :=
  String.mk (((s.toList.dropWhile isSpace).reverse.dropWhile isSpace).reverse)

/-- Python `s.upper()` (ASCII; the relevant comparison is with "KEY"). -/
def pyUpper (s : String) : String := String.mk (s.toList.map Char.toUpper)

def listStartsWith (l p : List Char) : Bool := l.take p.length == p

/-- Python `s.startswith(p)`. -/
def pyStartsWith (s p : String) : Bool := listStartsWith s.toList p.toList

/-- Python `s.endswith(p)`. -/
def pyEndsWith (s p : String) : Bool := listStartsWith s.toList.reverse p.toList.reverse

/-- Python `s[n:]`. -/
def pyDrop (s : String) (n : Nat) : String := String.mk (s.toList.drop n)

/-- Python `s[:-n]`. -/
def pyDropRight (s : String) (n : Nat) : String :=
  String.mk ((s.toList.reverse.drop n).reverse)

/-- Digits of a numeral to a natural number. -/
def digitsToNat (cs : List Char) : Nat :=
  cs.foldl (fun n c => n * 10 + (c.toNat - 48)) 0

/-- Build the float for `[sign] ip . fp`. -/
def Dec.ofParts (neg : Bool) (ip : List Char) (fp : List Char) : Dec :=
  let e := if fp.isEmpty then 1 else fp.length
  let a : Int := ((digitsToNat ip) * 10 ^ e + digitsToNat fp : Nat)
  ⟨if neg then -a else a, e⟩

/-- Model of the stdlib `float(s)` string conversion on the decimal forms
this program meets: optional sign, digits, optional dot and fractional
digits.  Any other string is `none` (the `ValueError` the code catches). -/
def parseFloat (s : String) : Option Dec :=
  let cs := s.toList
  let signed : Bool × List Char :=
    match cs with
    | '-' :: r => (true, r)
    | '+' :: r => (false, r)
    | r => (false, r)
  let ip := signed.2.takeWhile Char.isDigit
  let rest := signed.2.dropWhile Char.isDigit
  match rest with
  | [] => if ip.isEmpty then Option.none else some (Dec.ofParts signed.1 ip [])
  | '.' :: fp =>
      if fp.all Char.isDigit && !(ip.isEmpty && fp.isEmpty) then
        some (Dec.ofParts signed.1 ip fp)
      else Option.none
  | _ => Option.none

/-- Python `str(x)`.  A dict renders as a brace-delimited listing that can
never collide with the numeric keys of the channel mapping; the exact text
is irrelevant to every use, so it is abstracted to a brace-opening tag. -/
def pyStr : PyVal → String
  | .none => "None"
  | .bool b => if b then "True" else "False"
  | .int n => toString n
  | .float f => f.render
  | .str s => s
  | .dict _ => "\x7bdict\x7d"

/-- Python `float(x)`: `none` models the `TypeError`/`ValueError` raise. -/
def pyFloat : PyVal → Option Dec
  | .none => Option.none
  | .bool b => some (Dec.ofInt (if b then 1 else 0))
  | .int n => some (Dec.ofInt n)
  | .float f => some f
  | .str s => parseFloat s
  | .dict _ => Option.none

/-! ## Constants (`main.py` section 3) -/

def MACHINE_MAPPING_SLIP : List (String × String) :=
  [("20.0", "20"), ("20", "20"),
   ("30.0", "30"), ("30", "30"),
   ("30.01", "301"),
   ("40.0", "40"), ("40", "40"),
   ("50.0", "50"), ("50", "50")]

def MACHINE_PATH_MAP_COUPON : List (String × String) :=
  [("1", "20/payment_commands"),
   ("2", "302/payment_commands"),
   ("3", "301/payment_commands"),
   ("4", "30/payment_commands")]

def DEFAULT_PATH : String := "payment_commands"

def SLIPOK_BYPASS_CODES : List String := ["1009", "1010"]

/-! ## Amount normalizer (`get_target_path_from_amount`) -/

def get_target_path_from_amount (amount : PyVal) : Option String :=
  if amount.isNone then Option.none
  else
    match MACHINE_MAPPING_SLIP.lookup (pyStr amount) with
    | some ch => some (ch ++ "/payment_commands")
    | Option.none =>
      match pyFloat amount with
      | Option.none => Option.none
      | some f =>
        if f.isInt then
          match MACHINE_MAPPING_SLIP.lookup (toString f.toInt) with
          | some ch => some (ch ++ "/payment_commands")
          | Option.none => Option.none
        else Option.none

/-! ## Command dispatcher (`push_command_to_firebase`) -/

/-- The target path the dispatcher writes to: `path if path else
DEFAULT_PATH` (line 118); `None` and the empty string are falsy. -/
def push_command_target (path : Option String) : String :=
  match path with
  | some p => if p == "" then DEFAULT_PATH else p
  | Option.none => DEFAULT_PATH

/-! ## SlipOK wrapper (`check_slip_with_slipok`) -/

/-- Result of `requests.post(...)` + `response.json()`: `.error` models any
exception raised by the transport or the JSON body parse (both inside the
function's `try`). -/
abbrev SlipOkResp := Except Unit (Nat × PyVal)

def check_slip_with_slipok (resp : SlipOkResp) : Bool × PyVal :=
  match resp with
  | .error _ => (false, .none)
  | .ok (status, resJson) =>
    match resJson with
    | .dict es =>
      if status == 200 && truthy ((es.lookup "success").getD .none) then
        (true, (es.lookup "data").getD .none)
      else if SLIPOK_BYPASS_CODES.contains (pyStr ((es.lookup "code").getD .none)) then
        (true, .none)
      else (false, .none)
    | _ =>
      -- a non-dict JSON body makes `res_json.get` raise; the `except`
      -- catches it and returns (False, None)
      (false, .none)

/-! ## Gemini fallback (`clean_json_text`, `check_slip_with_gemini`) -/

def clean_json_text (text : String) : String :=
  let t := pyStrip text
  let t := if pyStartsWith t "```json" then pyDrop t 7 else t
  let t := if pyStartsWith t "```" then pyDrop t 3 else t
  let t := if pyEndsWith t "```" then pyDropRight t 3 else t
  pyStrip t

/-- Environment of one image event: the external collaborators' behaviour.
`jsonLoads` models the stdlib `json.loads` (`none` = `JSONDecodeError`);
`geminiResp` is the model call (`.error` = any exception in the `try`);
`geminiConfigured` is whether `GENAI_API_KEY` was set at process start. -/
structure ImgEnv where
  slipokResp : SlipOkResp
  geminiConfigured : Bool
  geminiResp : Except Unit String
  jsonLoads : String → Option PyVal
  pushOk : Bool
  now : Int

def check_slip_with_gemini (env : ImgEnv) : PyVal × PyVal :=
  if !env.geminiConfigured then (.none, .none)
  else
    match env.geminiResp with
    | .error _ => (.none, .none)
    | .ok text =>
      match env.jsonLoads (clean_json_text text) with
      | Option.none => (.none, .none)   -- JSONDecodeError → (None, None)
      | some result =>
        -- `result.get` on a non-dict raises and the outer `except`
        -- returns (None, None); `PyVal.get` yields the same pair there.
        (result.get "amount", result.get "trans_ref")

/-! ## Image event handler (`handle_image_message`) -/

structure SlipCommand where
  status : String
  method : String
  amount : PyVal
  transRef : PyVal
  timestamp : Int

/-- Observable result of one image event: the reply text, whether the AI
fallback was invoked, how many SlipOK calls were made, and the attempted
queue push (path, record, and whether the push committed). -/
structure ImgRun where
  reply : String
  geminiCalled : Bool
  slipokCalls : Nat
  push : Option (String × SlipCommand × Bool)

def REPLY_INVALID_SLIP : String := "❌ สลิปไม่ถูกต้อง/ซ้ำ/ยอดเงินไม่ตรง"

def REPLY_AI_FAIL : String := "⚠️ ธนาคารขัดข้องและระบบอ่านยอดเงินไม่ได้\nกรุณาติดต่อแอดมิน"

def REPLY_DISPATCHED (method : String) (amount : PyVal) : String :=
  (if method == "slip" then "✅" else "🤖(AI)") ++ " ได้รับยอด " ++ pyStr amount
    ++ " บาท\n*******เริ่มทำงาน*******"

def REPLY_IMG_PUSH_FAIL : String := "❌ ระบบขัดข้อง กรุณาติดต่อแอดมิน"

def REPLY_AMOUNT_MISMATCH (amount : PyVal) : String :=
  "⚠️ ยอดเงิน " ++ pyStr amount ++ " บาท ไม่ตรงกับราคาเครื่อง\nกรุณาติดต่อแอดมิน"

/-- Step 4 of the image handler: resolve the channel and push. -/
def image_dispatch (env : ImgEnv) (method : String) (amount transRef : PyVal)
    (geminiCalled : Bool) : ImgRun :=
  match get_target_path_from_amount amount with
  | Option.none => ⟨REPLY_AMOUNT_MISMATCH amount, geminiCalled, 1, Option.none⟩
  | some targetPath =>
    let cmd : SlipCommand := ⟨"work", method, amount, transRef, env.now⟩
    if env.pushOk then
      ⟨REPLY_DISPATCHED method amount, geminiCalled, 1, some (targetPath, cmd, true)⟩
    else
      ⟨REPLY_IMG_PUSH_FAIL, geminiCalled, 1, some (targetPath, cmd, false)⟩

/-- The image event handler from SlipOK check onward (byte extraction from
the transport is resolved before this point).  `.error` models an uncaught
exception escaping the handler (only possible when a truthy non-dict
`data` makes `slip_data.get` raise). -/
def handle_image_message (env : ImgEnv) : Except Unit ImgRun :=
  let r := check_slip_with_slipok env.slipokResp
  if !r.1 then
    .ok ⟨REPLY_INVALID_SLIP, false, 1, Option.none⟩
  else if truthy r.2 then
    match r.2 with
    | .dict es =>
      .ok (image_dispatch env "slip" ((es.lookup "amount").getD .none)
            ((es.lookup "transRef").getD .none) false)
    | _ => .error ()
  else
    let g := check_slip_with_gemini env
    if truthy g.1 then
      let transRef := if truthy g.2 then g.2 else .str ("ai-" ++ toString env.now)
      .ok (image_dispatch env "ai_fallback" g.1 transRef true)
    else
      .ok ⟨REPLY_AI_FAIL, true, 1, Option.none⟩

/-! ## Coupon redemption (`check_and_redeem_coupon`, `delete_coupon`) -/

/-- The coupon store (`coupons/<code>` nodes), as an association list.
A missing key is a `None` snapshot. -/
abbrev CouponStore := List (String × PyVal)

/-- `check_and_redeem_coupon`: read the snapshot and compute the value.
A read exception (`readFails`) is caught and gives `(False, 0)`.  The
dict branch's `float(snapshot.get('value', 0))` is *not* inside a
`try`, so a non-numeric `value` field raises out of the function: that
is the `.error` result. -/
def check_and_redeem_coupon (store : CouponStore) (readFails : Bool)
    (code : String) : Except Unit (Bool × Dec) :=
  if readFails then .ok (false, Dec.ofInt 0)
  else
    match store.lookup code with
    | Option.none => .ok (false, Dec.ofInt 0)
    | some snap =>
      if truthy snap then
        match snap with
        | .dict es =>
          match pyFloat ((es.lookup "value").getD (.int 0)) with
          | Option.none => .error ()
          | some v => .ok (true, v)
        | .bool _ | .int _ | .float _ | .str _ =>
          -- try: float(snapshot) except: pass  (value stays 0)
          .ok (true, (pyFloat snap).getD (Dec.ofInt 0))
        | .none => .ok (true, Dec.ofInt 0)
      else .ok (false, Dec.ofInt 0)

/-- `delete_coupon`: delete the node; any exception is caught and logged,
so the function always returns normally.  `deleteFails` injects the
failure: the store is then left unchanged. -/
def delete_coupon (store : CouponStore) (deleteFails : Bool) (code : String) :
    CouponStore :=
  if deleteFails then store else store.filter (fun kv => kv.1 != code)

/-! ## Text event handler (`handle_text_message`) -/

/-- The regex `^(\d{5})[- ]?0?([1-9])$`: five digits, an optional single
dash/space separator, an optional leading zero, one digit 1–9.  Because
`0` is not in `[1-9]`, the greedy reading of the two optional atoms is
equivalent to the backtracking regex semantics. -/
def matchMachine (s : String) : Option (String × String) :=
  let cs := s.toList
  let code := cs.take 5
  let rest := cs.drop 5
  if code.length == 5 && code.all Char.isDigit then
    let rest1 := match rest with
      | '-' :: r => r
      | ' ' :: r => r
      | r => r
    let rest2 := match rest1 with
      | '0' :: r => r
      | r => r
    match rest2 with
    | [c] => if '1' ≤ c ∧ c ≤ '9' then some (String.mk code, String.mk [c])
             else Option.none
    | _ => Option.none
  else Option.none

structure CouponCommand where
  status : String
  method : String
  code : String
  selected_machine : String
  transRef : String
  timestamp : Int

/-- Environment of one text event. -/
structure TextEnv where
  store : CouponStore
  readFails : Bool
  pushOk : Bool
  deleteFails : Bool
  now : Int

/-- Observable result of one text event: the reply (if any), the attempted
push, whether `delete_coupon` was invoked, how many coupon reads were
made, and the coupon store afterwards. -/
structure TextRun where
  reply : Option String
  push : Option (String × CouponCommand × Bool)
  deleteCalled : Bool
  reads : Nat
  newStore : CouponStore

def REPLY_KEY_HELP : String :=
  "🔑 พิมพ์รหัสตามด้วยหมายเลขเครื่อง\nเช่น 12345-1 (นับจากซ้ายไปขวา)"

def REPLY_COUPON_OK (machineNum : String) : String :=
  "✅ รหัสถูกต้อง!\nสั่งงานเครื่องที่ " ++ machineNum ++ " เรียบร้อย"

def REPLY_TEXT_PUSH_FAIL : String := "❌ ระบบขัดข้อง กรุณาลองใหม่"

def REPLY_INVALID_COUPON : String := "❌ รหัสไม่ถูกต้อง"

/-- The text event handler.  `.error` models the uncaught exception from
`check_and_redeem_coupon`'s dict branch escaping the handler. -/
def handle_text_message (env : TextEnv) (rawText : String) :
    Except Unit TextRun :=
  let text := pyStrip rawText
  if pyUpper text == "KEY" then
    .ok ⟨some REPLY_KEY_HELP, Option.none, false, 0, env.store⟩
  else
    match matchMachine text with
    | Option.none => .ok ⟨Option.none, Option.none, false, 0, env.store⟩
    | some (code, machineNum) =>
      match check_and_redeem_coupon env.store env.readFails code with
      | .error e => .error e
      | .ok (found, _) =>
        if found then
          let targetPath := (MACHINE_PATH_MAP_COUPON.lookup machineNum).getD DEFAULT_PATH
          let cmd : CouponCommand :=
            ⟨"work", "coupon", code, machineNum,
             "coupon-" ++ code ++ "-" ++ toString env.now, env.now⟩
          if env.pushOk then
            .ok ⟨some (REPLY_COUPON_OK machineNum), some (targetPath, cmd, true), true, 1,
                 delete_coupon env.store env.deleteFails code⟩
          else
            .ok ⟨some REPLY_TEXT_PUSH_FAIL, some (targetPath, cmd, false), false, 1,
                 env.store⟩
        else
          .ok ⟨some REPLY_INVALID_COUPON, Option.none, false, 1, env.store⟩

/-! ## Concrete environments used by counterexamples and witnesses -/

/-- A SlipOK success body reporting amount 99 (no configured channel). -/
def slipok99 : PyVal :=
  .dict [("success", .bool true), ("data", .dict [("amount", .int 99)])]

/-- A Gemini environment whose model response parses to a JSON object with
a `trans_ref` but no `amount` field. -/
def envC7 : ImgEnv :=
  ⟨.ok (400, .dict [("success", .bool false), ("code", .str "1009")]), true,
   .ok "```json\n\x7b\"trans_ref\": \"X\"\x7d\n```",
   fun s => if s = "\x7b\"trans_ref\": \"X\"\x7d"
            then some (.dict [("trans_ref", .str "X")]) else Option.none,
   true, 0⟩

/-! ## Helper lemmas -/

theorem image_dispatch_geminiCalled (env : ImgEnv) (m : String) (a t : PyVal)
    (g : Bool) : (image_dispatch env m a t g).geminiCalled = g := by
  unfold image_dispatch
  split
  · rfl
  · split <;> rfl

theorem image_dispatch_slipokCalls (env : ImgEnv) (m : String) (a t : PyVal)
    (g : Bool) : (image_dispatch env m a t g).slipokCalls = 1 := by
  unfold image_dispatch
  split
  · rfl
  · split <;> rfl

/-! ## Claim theorems -/

/-- C2: an amount whose Python string form is a key of
`MACHINE_MAPPING_SLIP` resolves to that key's channel path; when the
string form is not a key but the fractional part is exactly zero the
lookup is retried with the bare integer string; a nonzero fractional part
whose string is not a key gives no match; `20.5` never resolves while
`20`, `20.0` and `"20.00"` all resolve to the `20` channel. -/
theorem amount_normalization_spec :
    (∀ (a : PyVal) (ch : String),
      MACHINE_MAPPING_SLIP.lookup (pyStr a) = some ch →
      get_target_path_from_amount a = some (ch ++ "/payment_commands")) ∧
    (∀ (a : PyVal) (f : Dec),
      MACHINE_MAPPING_SLIP.lookup (pyStr a) = Option.none →
      pyFloat a = some f → f.isInt = true →
      get_target_path_from_amount a =
        (MACHINE_MAPPING_SLIP.lookup (toString f.toInt)).map
          (fun ch => ch ++ "/payment_commands")) ∧
    (∀ (a : PyVal) (f : Dec),
      pyFloat a = some f → f.isInt = false →
      MACHINE_MAPPING_SLIP.lookup (pyStr a) = Option.none →
      get_target_path_from_amount a = Option.none) ∧
    get_target_path_from_amount (.float ⟨205, 1⟩) = Option.none ∧
    get_target_path_from_amount (.int 20) = some "20/payment_commands" ∧
    get_target_path_from_amount (.float ⟨200, 1⟩) = some "20/payment_commands" ∧
    get_target_path_from_amount (.str "20.00") = some "20/payment_commands" := by
  refine ⟨?_, ?_, ?_, by decide, by decide, by decide, by decide⟩
  · intro a ch h
    have hn : a.isNone = false := by
      cases a with
      | none =>
        rw [show pyStr PyVal.none = "None" from rfl] at h
        rw [show MACHINE_MAPPING_SLIP.lookup "None" = Option.none from by decide] at h
        exact Option.noConfusion h
      | bool b => rfl
      | int n => rfl
      | float f => rfl
      | str s => rfl
      | dict es => rfl
    simp [get_target_path_from_amount, hn, h]
  · intro a f h1 h2 h3
    have hn : a.isNone = false := by
      cases a with
      | none => exact Option.noConfusion h2
      | bool b => rfl
      | int n => rfl
      | float f => rfl
      | str s => rfl
      | dict es => rfl
    cases hl : MACHINE_MAPPING_SLIP.lookup (toString f.toInt) with
    | none => simp [get_target_path_from_amount, hn, h1, h2, h3, hl]
    | some ch => simp [get_target_path_from_amount, hn, h1, h2, h3, hl]
  · intro a f h2 h3 h1
    have hn : a.isNone = false := by
      cases a with
      | none => exact Option.noConfusion h2
      | bool b => rfl
      | int n => rfl
      | float f => rfl
      | str s => rfl
      | dict es => rfl
    simp [get_target_path_from_amount, hn, h1, h2, h3]

theorem amount_normalization_spec_witness :
    get_target_path_from_amount (.int 30) = some "30/payment_commands" :=
  amount_normalization_spec.1 (.int 30) "30" (by decide)

/-- C8: the normalizer returns no match — without raising — on an absent
amount (`None`), on any string the float conversion rejects, and on any
dict value. -/
theorem resolve_none_and_malformed_nomatch :
    get_target_path_from_amount PyVal.none = Option.none ∧
    (∀ s : String, parseFloat s = Option.none →
      MACHINE_MAPPING_SLIP.lookup s = Option.none →
      get_target_path_from_amount (.str s) = Option.none) ∧
    (∀ es : List (String × PyVal),
      get_target_path_from_amount (.dict es) = Option.none) := by
  refine ⟨rfl, ?_, ?_⟩
  · intro s hp hl
    simp [get_target_path_from_amount, PyVal.isNone, pyStr, pyFloat, hp, hl]
  · intro es
    simp [get_target_path_from_amount, PyVal.isNone, pyStr, pyFloat,
      show MACHINE_MAPPING_SLIP.lookup "\x7bdict\x7d" = Option.none from by decide]

theorem resolve_none_and_malformed_nomatch_witness :
    get_target_path_from_amount (.str "abc") = Option.none :=
  resolve_none_and_malformed_nomatch.2.1 "abc" (by decide) (by decide)

/-- C3: on a service-reported failure response, the verdict is
accepted-bypass with absent data — and the AI fallback is then invoked —
exactly when the error code's string form is in `SLIPOK_BYPASS_CODES`;
any other failure code is rejected with no fallback invocation. -/
theorem bypass_code_iff_fallback :
    ∀ (env : ImgEnv) (status : Nat) (es : List (String × PyVal)),
      env.slipokResp = .ok (status, .dict es) →
      (status == 200 && truthy ((es.lookup "success").getD .none)) = false →
      ((SLIPOK_BYPASS_CODES.contains (pyStr ((es.lookup "code").getD .none)) = true →
          check_slip_with_slipok env.slipokResp = (true, PyVal.none) ∧
          ∃ run, handle_image_message env = .ok run ∧ run.geminiCalled = true) ∧
       (SLIPOK_BYPASS_CODES.contains (pyStr ((es.lookup "code").getD .none)) = false →
          check_slip_with_slipok env.slipokResp = (false, PyVal.none) ∧
          handle_image_message env = .ok ⟨REPLY_INVALID_SLIP, false, 1, Option.none⟩)) := by
  intro env status es h hfail
  constructor
  · intro hb
    have hb' : pyStr ((es.lookup "code").getD PyVal.none) ∈ SLIPOK_BYPASS_CODES := by
      simpa using hb
    have hc : check_slip_with_slipok env.slipokResp = (true, PyVal.none) := by
      rw [h]; simp [check_slip_with_slipok, hfail, hb']
    refine ⟨hc, ?_⟩
    unfold handle_image_message
    rw [hc]
    cases hg : truthy (check_slip_with_gemini env).1 with
    | true =>
      refine ⟨image_dispatch env "ai_fallback" (check_slip_with_gemini env).1
        (if truthy (check_slip_with_gemini env).2 = true then (check_slip_with_gemini env).2
         else PyVal.str ("ai-" ++ toString env.now)) true, ?_, ?_⟩
      · simp only [hg]
        rfl
      · exact image_dispatch_geminiCalled _ _ _ _ _
    | false =>
      refine ⟨⟨REPLY_AI_FAIL, true, 1, Option.none⟩, ?_, rfl⟩
      simp only [hg]
      rfl
  · intro hb
    have hb' : pyStr ((es.lookup "code").getD PyVal.none) ∉ SLIPOK_BYPASS_CODES := by
      simpa using hb
    have hc : check_slip_with_slipok env.slipokResp = (false, PyVal.none) := by
      rw [h]; simp [check_slip_with_slipok, hfail, hb']
    refine ⟨hc, ?_⟩
    unfold handle_image_message
    rw [hc]
    rfl

theorem bypass_code_iff_fallback_witness :
    check_slip_with_slipok (.ok (400, .dict [("success", .bool false), ("code", .int 1009)]))
      = (true, PyVal.none) ∧
    check_slip_with_slipok (.ok (400, .dict [("success", .bool false), ("code", .int 1012)]))
      = (false, PyVal.none) :=
  ⟨(bypass_code_iff_fallback
      ⟨.ok (400, .dict [("success", .bool false), ("code", .int 1009)]),
       true, .ok "t", fun _ => Option.none, true, 0⟩
      400 [("success", .bool false), ("code", .int 1009)] rfl (by decide)).1 (by decide)
      |>.1,
   (bypass_code_iff_fallback
      ⟨.ok (400, .dict [("success", .bool false), ("code", .int 1012)]),
       true, .ok "t", fun _ => Option.none, true, 0⟩
      400 [("success", .bool false), ("code", .int 1012)] rfl (by decide)).2 (by decide)
      |>.1⟩

/-- C4: a transport-level failure of the SlipOK call (the `requests.post`
or `response.json()` raising) is caught and mapped to the rejected
outcome with a single call and no push; a transport-level failure of the
coupon-store read is caught and the event ends with no push, no delete,
an unchanged store, at most one read, and — when the text matched a
redemption — the invalid-coupon reply. -/
theorem transport_failure_nonfatal :
    (∀ env : ImgEnv, env.slipokResp = .error () →
       check_slip_with_slipok env.slipokResp = (false, PyVal.none) ∧
       handle_image_message env = .ok ⟨REPLY_INVALID_SLIP, false, 1, Option.none⟩) ∧
    (∀ (env : TextEnv) (text : String), env.readFails = true →
       ∃ run, handle_text_message env text = .ok run ∧
         run.push = Option.none ∧ run.deleteCalled = false ∧
         run.newStore = env.store ∧ run.reads ≤ 1 ∧
         (∀ code m, matchMachine (pyStrip text) = some (code, m) →
            (pyUpper (pyStrip text) == "KEY") = false →
            run.reply = some REPLY_INVALID_COUPON)) := by
  constructor
  · intro env h
    have hc : check_slip_with_slipok env.slipokResp = (false, PyVal.none) := by
      rw [h]; rfl
    refine ⟨hc, ?_⟩
    unfold handle_image_message
    rw [hc]
    rfl
  · intro env text h
    cases hk : (pyUpper (pyStrip text) == "KEY") with
    | true =>
      refine ⟨⟨some REPLY_KEY_HELP, Option.none, false, 0, env.store⟩, ?_, rfl, rfl, rfl,
        by simp, ?_⟩
      · unfold handle_text_message
        simp only [hk, if_true]
      · intro code m hm hk2
        exact Bool.noConfusion hk2
    | false =>
      cases hm : matchMachine (pyStrip text) with
      | none =>
        refine ⟨⟨Option.none, Option.none, false, 0, env.store⟩, ?_, rfl, rfl, rfl,
          by simp, ?_⟩
        · unfold handle_text_message
          simp only [hk, Bool.false_eq_true, if_false, hm]
        · intro code m hm2 hk2
          exact Option.noConfusion hm2
      | some cm =>
        obtain ⟨code, machineNum⟩ := cm
        have hr : check_and_redeem_coupon env.store env.readFails code
            = .ok (false, Dec.ofInt 0) := by
          unfold check_and_redeem_coupon
          rw [h]
          rfl
        refine ⟨⟨some REPLY_INVALID_COUPON, Option.none, false, 1, env.store⟩, ?_, rfl, rfl,
          rfl, le_refl 1, fun _ _ _ _ => rfl⟩
        unfold handle_text_message
        simp only [hk, Bool.false_eq_true, if_false, hm, hr]

theorem transport_failure_nonfatal_witness :
    check_slip_with_slipok ((⟨.error (), true, .ok "t", fun _ => Option.none, true,
      0⟩ : ImgEnv)).slipokResp = (false, PyVal.none) ∧
    ∃ run, handle_text_message ⟨[("12345", PyVal.int 40)], true, true, false, 0⟩ "12345-1"
        = .ok run ∧
      run.push = Option.none ∧ run.deleteCalled = false ∧
      run.newStore = [("12345", PyVal.int 40)] ∧ run.reads ≤ 1 ∧
      (∀ code m, matchMachine (pyStrip "12345-1") = some (code, m) →
        (pyUpper (pyStrip "12345-1") == "KEY") = false →
        run.reply = some REPLY_INVALID_COUPON) :=
  ⟨(transport_failure_nonfatal.1 ⟨.error (), true, .ok "t", fun _ => Option.none, true, 0⟩
      rfl).1,
   transport_failure_nonfatal.2 ⟨[("12345", PyVal.int 40)], true, true, false, 0⟩
     "12345-1" rfl⟩

/-- C5: with no Gemini credential configured at start, the fallback
extractor is inert — it returns absent amount and reference for every
input — and every bypass-verdict image event ends with the operator
contact reply and no dispatch, without raising. -/
theorem unconfigured_gemini_inert :
    ∀ env : ImgEnv, env.geminiConfigured = false →
      check_slip_with_gemini env = (PyVal.none, PyVal.none) ∧
      (∀ (status : Nat) (es : List (String × PyVal)),
        env.slipokResp = .ok (status, .dict es) →
        (status == 200 && truthy ((es.lookup "success").getD .none)) = false →
        SLIPOK_BYPASS_CODES.contains (pyStr ((es.lookup "code").getD .none)) = true →
        handle_image_message env = .ok ⟨REPLY_AI_FAIL, true, 1, Option.none⟩) := by
  intro env h
  have hg : check_slip_with_gemini env = (PyVal.none, PyVal.none) := by
    unfold check_slip_with_gemini
    rw [h]
    rfl
  refine ⟨hg, ?_⟩
  intro status es hresp hfail hb
  have hb' : pyStr ((es.lookup "code").getD PyVal.none) ∈ SLIPOK_BYPASS_CODES := by
    simpa using hb
  have hc : check_slip_with_slipok env.slipokResp = (true, PyVal.none) := by
    rw [hresp]; simp [check_slip_with_slipok, hfail, hb']
  unfold handle_image_message
  rw [hc]
  simp only [hg]
  rfl

theorem unconfigured_gemini_inert_witness :
    check_slip_with_gemini
      ⟨.ok (400, .dict [("success", .bool false), ("code", .int 1010)]), false,
       .ok "t", fun _ => Option.none, true, 0⟩ = (PyVal.none, PyVal.none) ∧
    handle_image_message
      ⟨.ok (400, .dict [("success", .bool false), ("code", .int 1010)]), false,
       .ok "t", fun _ => Option.none, true, 0⟩
      = .ok ⟨REPLY_AI_FAIL, true, 1, Option.none⟩ :=
  ⟨(unconfigured_gemini_inert
      ⟨.ok (400, .dict [("success", .bool false), ("code", .int 1010)]), false,
       .ok "t", fun _ => Option.none, true, 0⟩ rfl).1,
   (unconfigured_gemini_inert
      ⟨.ok (400, .dict [("success", .bool false), ("code", .int 1010)]), false,
       .ok "t", fun _ => Option.none, true, 0⟩ rfl).2
     400 [("success", .bool false), ("code", .int 1010)] rfl (by decide) (by decide)⟩

/-- C9: in the bypass path, success of the AI fallback is decided by the
truthiness of the extracted amount: any falsy amount (absent, or equal to
zero) ends the event with the operator-contact reply and no dispatch. -/
theorem ai_amount_truthiness_decides :
    ∀ (env : ImgEnv) (status : Nat) (es : List (String × PyVal)),
      env.slipokResp = .ok (status, .dict es) →
      (status == 200 && truthy ((es.lookup "success").getD .none)) = false →
      SLIPOK_BYPASS_CODES.contains (pyStr ((es.lookup "code").getD .none)) = true →
      truthy (check_slip_with_gemini env).1 = false →
      handle_image_message env = .ok ⟨REPLY_AI_FAIL, true, 1, Option.none⟩ := by
  intro env status es hresp hfail hb hg
  have hb' : pyStr ((es.lookup "code").getD PyVal.none) ∈ SLIPOK_BYPASS_CODES := by
    simpa using hb
  have hc : check_slip_with_slipok env.slipokResp = (true, PyVal.none) := by
    rw [hresp]; simp [check_slip_with_slipok, hfail, hb']
  unfold handle_image_message
  rw [hc]
  simp only [hg]
  rfl

/-- Witness for C9: the model extracts amount `0.0` — present but falsy —
and the event ends in the operator-contact reply with no dispatch. -/
theorem ai_amount_truthiness_decides_witness :
    (check_slip_with_gemini
       ⟨.ok (400, .dict [("success", .bool false), ("code", .int 1009)]), true, .ok "t",
        fun _ => some (.dict [("amount", .float ⟨0, 1⟩), ("trans_ref", .str "R")]),
        true, 0⟩).1 = .float ⟨0, 1⟩ ∧
    handle_image_message
      ⟨.ok (400, .dict [("success", .bool false), ("code", .int 1009)]), true, .ok "t",
       fun _ => some (.dict [("amount", .float ⟨0, 1⟩), ("trans_ref", .str "R")]),
       true, 0⟩ = .ok ⟨REPLY_AI_FAIL, true, 1, Option.none⟩ :=
  ⟨rfl,
   ai_amount_truthiness_decides
     ⟨.ok (400, .dict [("success", .bool false), ("code", .int 1009)]), true, .ok "t",
      fun _ => some (.dict [("amount", .float ⟨0, 1⟩), ("trans_ref", .str "R")]),
      true, 0⟩
     400 [("success", .bool false), ("code", .int 1009)] rfl (by decide) (by decide) rfl⟩

/-- C1: in the coupon path, `delete_coupon` is invoked exactly when the
push to the command queue returned true; a failed push leaves the store
unchanged and a retry of the same text with a working queue succeeds and
deletes the coupon. -/
theorem coupon_deleted_iff_push_committed :
    ∀ (env : TextEnv) (text : String) (run : TextRun),
      handle_text_message env text = .ok run →
      ((run.deleteCalled = true ↔ ∃ p c, run.push = some (p, c, true)) ∧
       (∀ p c, run.push = some (p, c, false) →
          run.newStore = env.store ∧
          ∃ run2,
            handle_text_message ⟨env.store, env.readFails, true, env.deleteFails, env.now⟩
                text = .ok run2 ∧
              run2.deleteCalled = true ∧
              (∃ m, run2.reply = some (REPLY_COUPON_OK m)) ∧
              ∃ p2 c2, run2.push = some (p2, c2, true))) := by
  intro env text run h
  unfold handle_text_message at h
  by_cases hk : (pyUpper (pyStrip text) == "KEY") = true
  · rw [if_pos hk] at h
    cases h
    refine ⟨by simp, ?_⟩
    intro p c hp
    exact Option.noConfusion hp
  · rw [if_neg hk] at h
    cases hm : matchMachine (pyStrip text) with
    | none =>
      rw [hm] at h
      cases h
      refine ⟨by simp, ?_⟩
      intro p c hp
      exact Option.noConfusion hp
    | some cm =>
      obtain ⟨code, machineNum⟩ := cm
      simp only [hm] at h
      cases hr : check_and_redeem_coupon env.store env.readFails code with
      | error e =>
        simp only [hr] at h
        exact Except.noConfusion h
      | ok fv =>
        obtain ⟨found, v⟩ := fv
        simp only [hr] at h
        cases found with
        | false =>
          simp only [Bool.false_eq_true, if_false] at h
          cases h
          refine ⟨by simp, ?_⟩
          intro p c hp
          exact Option.noConfusion hp
        | true =>
          simp only [if_true] at h
          by_cases hpush : env.pushOk = true
          · rw [if_pos hpush] at h
            cases h
            constructor
            · exact ⟨fun _ => ⟨_, _, rfl⟩, fun _ => rfl⟩
            · intro p c hp
              simp at hp
          · rw [if_neg hpush] at h
            cases h
            constructor
            · constructor
              · intro hd
                exact Bool.noConfusion hd
              · intro hd
                obtain ⟨p, c, hp⟩ := hd
                simp at hp
            · intro p c hp
              refine ⟨rfl, ?_⟩
              refine ⟨⟨some (REPLY_COUPON_OK machineNum),
                some ((MACHINE_PATH_MAP_COUPON.lookup machineNum).getD DEFAULT_PATH,
                  ⟨"work", "coupon", code, machineNum,
                   "coupon-" ++ code ++ "-" ++ toString env.now, env.now⟩, true), true, 1,
                delete_coupon env.store env.deleteFails code⟩, ?_, rfl,
                ⟨machineNum, rfl⟩, ⟨_, _, rfl⟩⟩
              unfold handle_text_message
              rw [if_neg hk]
              simp only [hm, hr]
              rfl

theorem coupon_deleted_iff_push_committed_witness :
    ∃ run, handle_text_message ⟨[("12345", PyVal.int 40)], false, true, false, 7⟩ "12345-1"
        = .ok run ∧ (run.deleteCalled = true ↔ ∃ p c, run.push = some (p, c, true)) := by
  have hrun : handle_text_message ⟨[("12345", PyVal.int 40)], false, true, false, 7⟩ "12345-1"
      = .ok ⟨some (REPLY_COUPON_OK "1"),
          some ("20/payment_commands",
            ⟨"work", "coupon", "12345", "1", "coupon-12345-7", 7⟩, true), true, 1, []⟩ := by
    rfl
  exact ⟨_, hrun,
    (coupon_deleted_iff_push_committed ⟨[("12345", PyVal.int 40)], false, true, false, 7⟩
      "12345-1" _ hrun).1⟩

/-- C10: when coupon deletion fails after a successful push, the failure
is swallowed: the handler still returns normally with the success reply,
the store is unchanged, and re-running the same event on the resulting
store reproduces the same successful redemption. -/
theorem delete_failure_swallowed :
    ∀ (env : TextEnv) (text : String) (run : TextRun),
      env.deleteFails = true →
      handle_text_message env text = .ok run →
      run.newStore = env.store ∧
      (run.deleteCalled = true →
        (∃ m, run.reply = some (REPLY_COUPON_OK m)) ∧
        handle_text_message ⟨run.newStore, env.readFails, env.pushOk, env.deleteFails, env.now⟩
            text = .ok run) := by
  intro env text run hdel h
  have henv : ∀ st, st = env.store →
      (⟨st, env.readFails, env.pushOk, env.deleteFails, env.now⟩ : TextEnv) = env := by
    intro st hst
    rw [hst]
  unfold handle_text_message at h
  by_cases hk : (pyUpper (pyStrip text) == "KEY") = true
  · rw [if_pos hk] at h
    cases h
    exact ⟨rfl, fun hd => Bool.noConfusion hd⟩
  · rw [if_neg hk] at h
    cases hm : matchMachine (pyStrip text) with
    | none =>
      simp only [hm] at h
      cases h
      exact ⟨rfl, fun hd => Bool.noConfusion hd⟩
    | some cm =>
      obtain ⟨code, machineNum⟩ := cm
      simp only [hm] at h
      cases hr : check_and_redeem_coupon env.store env.readFails code with
      | error e =>
        simp only [hr] at h
        exact Except.noConfusion h
      | ok fv =>
        obtain ⟨found, v⟩ := fv
        simp only [hr] at h
        cases found with
        | false =>
          simp only [Bool.false_eq_true, if_false] at h
          cases h
          exact ⟨rfl, fun hd => Bool.noConfusion hd⟩
        | true =>
          simp only [if_true] at h
          by_cases hpush : env.pushOk = true
          · rw [if_pos hpush] at h
            cases h
            have hstore : delete_coupon env.store env.deleteFails code = env.store := by
              unfold delete_coupon
              rw [hdel]
              rfl
            refine ⟨hstore, fun _ => ⟨⟨machineNum, rfl⟩, ?_⟩⟩
            have := henv _ hstore
            rw [show (⟨(⟨some (REPLY_COUPON_OK machineNum), _, true, 1,
              delete_coupon env.store env.deleteFails code⟩ : TextRun).newStore,
              env.readFails, env.pushOk, env.deleteFails, env.now⟩ : TextEnv) = env from this]
            unfold handle_text_message
            rw [if_neg hk]
            simp only [hm, hr, hpush]
            rfl
          · rw [if_neg hpush] at h
            cases h
            exact ⟨rfl, fun hd => Bool.noConfusion hd⟩

theorem delete_failure_swallowed_witness :
    ∃ run, handle_text_message ⟨[("12345", PyVal.int 40)], false, true, true, 7⟩ "12345-1"
        = .ok run ∧
      run.newStore = [("12345", PyVal.int 40)] ∧
      (∃ m, run.reply = some (REPLY_COUPON_OK m)) := by
  have hrun : handle_text_message ⟨[("12345", PyVal.int 40)], false, true, true, 7⟩ "12345-1"
      = .ok ⟨some (REPLY_COUPON_OK "1"),
          some ("20/payment_commands",
            ⟨"work", "coupon", "12345", "1", "coupon-12345-7", 7⟩, true), true, 1,
          [("12345", PyVal.int 40)]⟩ := by
    rfl
  obtain ⟨h1, h2⟩ := delete_failure_swallowed
    ⟨[("12345", PyVal.int 40)], false, true, true, 7⟩ "12345-1" _ rfl hrun
  exact ⟨_, hrun, h1, (h2 rfl).1⟩

/-- C6 counterexample: the NoMatch policy is not selectable by any
configuration — with a verified slip of amount 99 (no configured
channel), no environment whatsoever makes the image handler dispatch:
the strict amount-mismatch policy is hardcoded. -/
theorem nomatch_policy_not_configurable_cex :
    ¬ ∃ (env : ImgEnv) (run : ImgRun),
        env.slipokResp = .ok (200, slipok99) ∧
        handle_image_message env = .ok run ∧ run.push ≠ Option.none := by
  rintro ⟨env, run, h1, h2, h3⟩
  have hc : check_slip_with_slipok env.slipokResp
      = (true, .dict [("amount", PyVal.int 99)]) := by
    rw [h1]
    rfl
  have hrun : handle_image_message env
      = .ok ⟨REPLY_AMOUNT_MISMATCH (.int 99), false, 1, Option.none⟩ := by
    unfold handle_image_message
    rw [hc]
    rfl
  rw [h2] at hrun
  injection hrun with hrec
  subst hrec
  exact h3 rfl

/-- C6 amended: on a NoMatch amount the image path always surfaces the
strict amount-mismatch reply and never dispatches, under every
environment; the default fallback channel `DEFAULT_PATH` is hardcoded,
reached only when the dispatcher is handed a falsy path or a coupon
machine number is unmapped — no configuration flag selects between the
two policies. -/
theorem nomatch_policy_hardcoded :
    (∀ (env : ImgEnv) (status : Nat) (es ds : List (String × PyVal)),
       env.slipokResp = .ok (status, .dict es) →
       (status == 200 && truthy ((es.lookup "success").getD .none)) = true →
       (es.lookup "data").getD .none = .dict ds →
       truthy (.dict ds) = true →
       get_target_path_from_amount ((ds.lookup "amount").getD .none) = Option.none →
       handle_image_message env =
         .ok ⟨REPLY_AMOUNT_MISMATCH ((ds.lookup "amount").getD .none), false, 1,
              Option.none⟩) ∧
    push_command_target Option.none = DEFAULT_PATH ∧
    push_command_target (some "") = DEFAULT_PATH ∧
    (MACHINE_PATH_MAP_COUPON.lookup "5").getD DEFAULT_PATH = DEFAULT_PATH := by
  refine ⟨?_, rfl, rfl, rfl⟩
  intro env status es ds h1 hsucc hdata hne hnm
  have hc : check_slip_with_slipok env.slipokResp = (true, .dict ds) := by
    rw [h1]
    simp [check_slip_with_slipok, hsucc, hdata]
  have hd : image_dispatch env "slip" ((ds.lookup "amount").getD .none)
      ((ds.lookup "transRef").getD .none) false
      = ⟨REPLY_AMOUNT_MISMATCH ((ds.lookup "amount").getD .none), false, 1,
         Option.none⟩ := by
    unfold image_dispatch
    rw [hnm]
  unfold handle_image_message
  rw [hc]
  simp only [hne, hd]
  rfl

theorem nomatch_policy_hardcoded_witness :
    handle_image_message ⟨.ok (200, slipok99), true, .ok "t", fun _ => Option.none, true, 5⟩
      = .ok ⟨REPLY_AMOUNT_MISMATCH (.int 99), false, 1, Option.none⟩ :=
  nomatch_policy_hardcoded.1
    ⟨.ok (200, slipok99), true, .ok "t", fun _ => Option.none, true, 5⟩
    200 [("success", .bool true), ("data", .dict [("amount", .int 99)])]
    [("amount", .int 99)] rfl (by decide) rfl (by decide) (by decide)

/-- C7 counterexample: a parsed model response lacking the amount field
does not yield an absent reference — the `trans_ref` field is passed
through, so the result is (absent amount, present reference), refuting
"yields absent amount and absent reference". -/
theorem missing_amount_passes_reference_cex :
    check_slip_with_gemini envC7 = (PyVal.none, PyVal.str "X") ∧
    PyVal.str "X" ≠ PyVal.none := by
  constructor
  · rfl
  · intro h
    exact PyVal.noConfusion h

/-- C7 amended: the handler strips code fences and then parses; a parse
failure yields absent amount and absent reference; a successfully parsed
object yields exactly its `amount` field — absent when missing, never
defaulted, with no numericity check — while `trans_ref` is passed through
as parsed. -/
theorem gemini_response_handling :
    (∀ (env : ImgEnv) (text : String),
       env.geminiConfigured = true →
       env.geminiResp = .ok text →
       env.jsonLoads (clean_json_text text) = Option.none →
       check_slip_with_gemini env = (PyVal.none, PyVal.none)) ∧
    (∀ (env : ImgEnv) (text : String) (d : List (String × PyVal)),
       env.geminiConfigured = true →
       env.geminiResp = .ok text →
       env.jsonLoads (clean_json_text text) = some (.dict d) →
       check_slip_with_gemini env =
         ((d.lookup "amount").getD .none, (d.lookup "trans_ref").getD .none)) ∧
    clean_json_text "```json\n\x7b\"amount\": 40.0\x7d\n```" = "\x7b\"amount\": 40.0\x7d" ∧
    clean_json_text "```\n\x7b\"a\": 1\x7d\n```" = "\x7b\"a\": 1\x7d" ∧
    clean_json_text "  \x7b\"a\": 1\x7d " = "\x7b\"a\": 1\x7d" := by
  refine ⟨?_, ?_, rfl, rfl, rfl⟩
  · intro env text hconf hresp hparse
    unfold check_slip_with_gemini
    simp only [hconf, hresp, hparse]
    rfl
  · intro env text d hconf hresp hparse
    unfold check_slip_with_gemini
    simp only [hconf, hresp, hparse]
    rfl

theorem gemini_response_handling_witness :
    check_slip_with_gemini ⟨.error (), true, .ok "not json", fun _ => Option.none, true, 0⟩
      = (PyVal.none, PyVal.none) :=
  gemini_response_handling.1
    ⟨.error (), true, .ok "not json", fun _ => Option.none, true, 0⟩
    "not json" rfl rfl rfl

end Wash24
